import Mathlib

/-!
# Verification of the SOAP auth service token lifecycle

Shallow embedding of the credential/token core of the repository:
`auth_service.py` (login, refresh_token, logout, request_password_reset,
reset_password, verify_token), `rate_limiter.py` (check_rate_limit,
record_login_attempt, cleanup_old_attempts, reset_rate_limit) and the
row types of `models.py`.

Modelling conventions:
* Timestamps are `Int` seconds (the code uses `datetime.utcnow()`).
* The relational tables are Lean lists; `filter_by(...).first()` is
  `List.find?`, a bulk `update` is a `List.map`, a bulk `delete` is a
  `List.filter`, an `INSERT` is an append.
* `jwt.decode(token, SECRET)` is an environment function
  `dec : String → Option Payload`: `some p` means the signature verifies
  and the claim set is `p` (PyJWT then raises `ExpiredSignatureError`
  exactly when `p.exp ≤ now`), `none` means `InvalidTokenError`.
* `bcrypt` hashing/checking, `jwt.encode` and the e-mail regex are
  environment functions (`hashp`, `checkpw`, `enc`, `validEmail`); they
  are external libraries, not code of this repository.
* The SHA-256 fingerprint `jti` of a token string is modelled as the
  identity function (a deterministic, collision-free fingerprint).
* `generate_token()` (uuid4) is modelled by passing the fresh string as
  an explicit argument.
* A fallible `session.commit()` in `reset_password` is modelled by an
  explicit `commitOk : Bool` argument; on `False` the SQLAlchemy session
  rolls back, so the returned state is the input state.
Every operation returns `(Except Fault α) × DB`: the result (or the
fault that the spyne layer receives) together with the database state
after the call.
-/

/-- JWT claim set produced by `login`/`refresh_token` in
`auth_service.py`: `{user_id, username, role, type, exp, iat}`. -/
structure Payload where
  user_id : Nat
  username : String
  role : String
  type : String
  exp : Int
  iat : Int
deriving DecidableEq, Repr

/-- Row of the `users` table (`models.py`, class `User`). -/
structure UserRow where
  id : Nat
  username : String
  email : String
  password_hash : String
  role : String
deriving DecidableEq, Repr

/-- Row of the `refresh_tokens` table (`models.py`, class `RefreshToken`). -/
structure RefreshTokenRow where
  token : String
  user_id : Nat
  expires_at : Int
  revoked : Bool
deriving DecidableEq, Repr

/-- Row of the `login_attempts` table (`models.py`, class `LoginAttempt`). -/
structure LoginAttemptRow where
  username : String
  success : Bool
  attempted_at : Int
deriving DecidableEq, Repr

/-- Row of the `password_reset_tokens` table (`models.py`,
class `PasswordResetToken`). -/
structure ResetTokenRow where
  token : String
  user_id : Nat
  expires_at : Int
  used : Bool
deriving DecidableEq, Repr

/-- Row of the `token_blacklist` table (`models.py`, class `TokenBlacklist`). -/
structure BlacklistRow where
  jti : String
  token : String
  expires_at : Int
deriving DecidableEq, Repr

/-- The shared database state of the auth core. -/
structure DB where
  users : List UserRow
  refresh_tokens : List RefreshTokenRow
  login_attempts : List LoginAttemptRow
  reset_tokens : List ResetTokenRow
  blacklist : List BlacklistRow
deriving DecidableEq, Repr

/-- External collaborators and configuration: JWT decode/encode under the
process-wide secret, bcrypt check/hash, the e-mail regex, and the
environment-configured limits (`RATE_LIMIT_MAX_ATTEMPTS` default 5,
`RATE_LIMIT_WINDOW_MINUTES` default 15, access/refresh lifetimes). -/
structure Env where
  dec : String → Option Payload
  enc : Payload → String
  checkpw : String → String → Bool
  hashp : String → String
  validEmail : String → Bool
  maxAttempts : Nat
  windowSecs : Int
  accessExpSecs : Int
  refreshExpSecs : Int

/-- Fault taxonomy: one constructor per distinct `Fault` raised by
`auth_service.py` / `rate_limiter.py`, identified by its faultstring. -/
inductive Fault where
  | rateLimitExceeded
  | invalidCredentials
  | invalidRefreshToken
  | refreshTokenRevoked
  | refreshTokenExpired
  | userNotFound
  | invalidToken
  | tokenRevoked
  | tokenExpired
  | invalidResetToken
  | resetTokenUsed
  | resetTokenExpired
  | passwordTooShort
  | usernameTooShort
  | emailInvalid
  | usernameExists
  | emailExists
  | invalidRole
  | serverError (msg : String)
deriving DecidableEq, Repr

instance {ε α : Type} [DecidableEq ε] [DecidableEq α] : DecidableEq (Except ε α)
  | .error a, .error b =>
    if h : a = b then isTrue (congrArg Except.error h)
    else isFalse (fun hc => h (Except.error.inj hc))
  | .error _, .ok _ => isFalse (fun hc => Except.noConfusion hc)
  | .ok _, .error _ => isFalse (fun hc => Except.noConfusion hc)
  | .ok a, .ok b =>
    if h : a = b then isTrue (congrArg Except.ok h)
    else isFalse (fun hc => h (Except.ok.inj hc))

/-- `hashlib.sha256(token).hexdigest()`, modelled as a deterministic
collision-free fingerprint of the token string. -/
def jtiOf (token : String) : String := token

/-- Replace the first element satisfying `p` by its image under `f`
(SQLAlchemy: mutate the row returned by `filter_by(...).first()`). -/
def replaceFirst (p : α → Bool) (f : α → α) : List α → List α
  | [] => []
  | x :: xs => if p x then f x :: xs else x :: replaceFirst p f xs

/-- `rate_limiter.check_rate_limit`: start of the trailing window,
`datetime.utcnow() - timedelta(minutes=WINDOW_MINUTES)`. -/
def windowStart (e : Env) (now : Int) : Int := now - e.windowSecs

/-- The count taken by `check_rate_limit` (rate_limiter.py lines 24-28):
failed attempts of `username` with `attempted_at >= window_start`. -/
def failedAttemptsInWindow (e : Env) (now : Int) (db : DB) (username : String) : Nat :=
  (db.login_attempts.filter (fun a =>
    a.username == username && !a.success && decide (windowStart e now ≤ a.attempted_at))).length

/-- `rate_limiter.cleanup_old_attempts`: delete attempts older than 24 h. -/
def cleanup_old_attempts (now : Int) (db : DB) : DB :=
  { db with login_attempts :=
      db.login_attempts.filter (fun a => !decide (a.attempted_at < now - 24 * 3600)) }

/-- `rate_limiter.check_rate_limit`: fault when the in-window failed count
reaches `MAX_ATTEMPTS` (the fault is raised before the cleanup runs);
otherwise run `cleanup_old_attempts` and allow. -/
def check_rate_limit (e : Env) (now : Int) (db : DB) (username : String) :
    (Except Fault Unit) × DB :=
  if e.maxAttempts ≤ failedAttemptsInWindow e now db username then
    (.error .rateLimitExceeded, db)
  else
    (.ok (), cleanup_old_attempts now db)

/-- `rate_limiter.record_login_attempt`: append one `LoginAttempt` row. -/
def record_login_attempt (now : Int) (db : DB) (username : String) (success : Bool) : DB :=
  { db with login_attempts := db.login_attempts ++ [⟨username, success, now⟩] }

/-- `rate_limiter.reset_rate_limit`: delete the failed attempts of
`username`. -/
def reset_rate_limit (db : DB) (username : String) : DB :=
  { db with login_attempts :=
      db.login_attempts.filter (fun a => !(a.username == username && !a.success)) }

/-- The access-token claim set minted at login/refresh
(auth_service.py lines 111-118 and 181-188). -/
def accessPayload (e : Env) (now : Int) (u : UserRow) : Payload :=
  { user_id := u.id, username := u.username, role := u.role, type := "access",
    exp := now + e.accessExpSecs, iat := now }

/-- The JSON-ish response string of `login`/`refresh_token`
(auth_service.py lines 139 and 205). -/
def mkTokenResponse (e : Env) (access refresh : String) : String :=
  "\x7b\x22access_token\x22: \x22" ++ access ++ "\x22, \x22refresh_token\x22: \x22"
    ++ refresh ++ "\x22, \x22expires_in\x22: " ++ toString (e.accessExpSecs) ++ "\x7d"

/-- `AuthService.login` (auth_service.py lines 80-146): rate-limit check
first, then user lookup, then bcrypt verification; on success store a
fresh refresh token, record the success and reset the rate limit.
`newRefreshTok` is the `generate_token()` value. -/
def login (e : Env) (now : Int) (newRefreshTok : String) (db : DB)
    (username password : String) : (Except Fault String) × DB :=
  match check_rate_limit e now db username with
  | (.error f, db1) => (.error f, db1)
  | (.ok _, db1) =>
    match db1.users.find? (fun u => u.username == username) with
    | none => (.error .invalidCredentials, record_login_attempt now db1 username false)
    | some u =>
      if !(e.checkpw password u.password_hash) then
        (.error .invalidCredentials, record_login_attempt now db1 username false)
      else
        let db2 : DB := { db1 with refresh_tokens := db1.refresh_tokens ++
          [⟨newRefreshTok, u.id, now + e.refreshExpSecs, false⟩] }
        let db3 := record_login_attempt now db2 username true
        let db4 := reset_rate_limit db3 username
        (.ok (mkTokenResponse e (e.enc (accessPayload e now u)) newRefreshTok), db4)

/-- `AuthService.refresh_token` (auth_service.py lines 148-212): look the
token up by exact value; fault if absent, revoked, or expired; otherwise
rotate: flip the found row to `revoked=True` and insert a fresh refresh
token (`newTok` is the `generate_token()` value) in one transaction. -/
def refresh_token (e : Env) (now : Int) (newTok : String) (db : DB)
    (rt : String) : (Except Fault String) × DB :=
  match db.refresh_tokens.find? (fun t => t.token == rt) with
  | none => (.error .invalidRefreshToken, db)
  | some t =>
    if t.revoked then (.error .refreshTokenRevoked, db)
    else if decide (t.expires_at < now) then (.error .refreshTokenExpired, db)
    else
      match db.users.find? (fun u => u.id == t.user_id) with
      | none => (.error .userNotFound, db)
      | some u =>
        (.ok (mkTokenResponse e (e.enc (accessPayload e now u)) newTok),
         { db with refresh_tokens :=
             (replaceFirst (fun x => x.token == rt)
               (fun x => { x with revoked := true }) db.refresh_tokens)
             ++ [⟨newTok, u.id, now + e.refreshExpSecs, false⟩] })

/-- `AuthService.logout` (auth_service.py lines 214-267): decode; an
expired token returns success with no write; an invalid one faults; if
the jti is already blacklisted return success with no write; otherwise
insert the blacklist row (with the token's natural expiry) and revoke
every non-revoked refresh token of the token's user. -/
def logout (e : Env) (now : Int) (db : DB) (access_token : String) :
    (Except Fault String) × DB :=
  match e.dec access_token with
  | none => (.error .invalidToken, db)
  | some p =>
    if decide (p.exp ≤ now) then (.ok "SUCCESS: Logged out", db)
    else if db.blacklist.any (fun b => b.jti == jtiOf access_token) then
      (.ok "SUCCESS: Already logged out", db)
    else
      (.ok "SUCCESS: Logged out successfully",
       { db with
         blacklist := db.blacklist ++ [⟨jtiOf access_token, access_token, p.exp⟩],
         refresh_tokens := db.refresh_tokens.map (fun t =>
           if t.user_id == p.user_id && !t.revoked then { t with revoked := true } else t) })

/-- The constant response of `request_password_reset`
(auth_service.py lines 286 and 311). -/
def resetRequestResponse : String :=
  "SUCCESS: If email exists, password reset instructions have been sent"

/-- `AuthService.request_password_reset` (auth_service.py lines 269-317):
look the user up by e-mail; always answer the same success string; when
the user exists, store a fresh 1-hour reset token (`newTok` is the
`generate_token()` value). -/
def request_password_reset (now : Int) (newTok : String) (db : DB)
    (email : String) : (Except Fault String) × DB :=
  match db.users.find? (fun u => u.email == email) with
  | none => (.ok resetRequestResponse, db)
  | some u =>
    (.ok resetRequestResponse,
     { db with reset_tokens := db.reset_tokens ++ [⟨newTok, u.id, now + 3600, false⟩] })

/-- `AuthService.reset_password` (auth_service.py lines 319-375): check
the new password length, look the reset token up; fault if absent, used,
or expired; otherwise replace the user's password hash, mark the token
used and revoke all the user's live refresh tokens in one transaction
(`commitOk = false` models a failing `session.commit()`: the session is
rolled back and a Server fault is raised, leaving the state unchanged). -/
def reset_password (e : Env) (now : Int) (commitOk : Bool) (db : DB)
    (reset_token new_password : String) : (Except Fault String) × DB :=
  if new_password.length < 6 then (.error .passwordTooShort, db)
  else
    match db.reset_tokens.find? (fun t => t.token == reset_token) with
    | none => (.error .invalidResetToken, db)
    | some t =>
      if t.used then (.error .resetTokenUsed, db)
      else if decide (t.expires_at < now) then (.error .resetTokenExpired, db)
      else
        match db.users.find? (fun u => u.id == t.user_id) with
        | none => (.error .userNotFound, db)
        | some u =>
          if commitOk then
            (.ok ("SUCCESS: Password reset successfully for user " ++ u.username),
             { db with
               users := replaceFirst (fun x => x.id == t.user_id)
                 (fun x => { x with password_hash := e.hashp new_password }) db.users,
               reset_tokens := replaceFirst (fun x => x.token == reset_token)
                 (fun x => { x with used := true }) db.reset_tokens,
               refresh_tokens := db.refresh_tokens.map (fun x =>
                 if x.user_id == u.id && !x.revoked then { x with revoked := true } else x) })
          else (.error (.serverError "Password reset failed"), db)

/-- `AuthService.verify_token` (auth_service.py lines 377-408): the
blacklist is consulted first; only then is the token decoded (signature,
then expiry). Read-only: the state is not changed. -/
def verify_token (e : Env) (now : Int) (db : DB) (token : String) :
    Except Fault String :=
  if db.blacklist.any (fun b => b.jti == jtiOf token) then .error .tokenRevoked
  else
    match e.dec token with
    | none => .error .invalidToken
    | some p =>
      if decide (p.exp ≤ now) then .error .tokenExpired
      else .ok ("Valid token for user: " ++ p.username ++ " (ID: "
          ++ toString p.user_id ++ ", Role: " ++ p.role ++ ")")

/-- `UserRole[role.upper()].value` (auth_service.py lines 54-57 with the
enum of models.py): the stored lowercase role, or `none` on `KeyError`. -/
def roleValue (role : String) : Option String :=
  if role.toUpper == "ADMIN" then some "admin"
  else if role.toUpper == "USER" then some "user"
  else if role.toUpper == "VIEWER" then some "viewer"
  else none

/-- `AuthService.register` (auth_service.py lines 21-78): validate the
inputs, reject duplicate username/e-mail, store the bcrypt hash.
`newId` is the autoincrement id the database assigns. -/
def register (e : Env) (newId : Nat) (db : DB)
    (username password email role : String) : (Except Fault String) × DB :=
  if username.length < 3 then (.error .usernameTooShort, db)
  else if password.length < 6 then (.error .passwordTooShort, db)
  else if !(e.validEmail email) then (.error .emailInvalid, db)
  else
    match db.users.find? (fun u => u.username == username) with
    | some _ => (.error .usernameExists, db)
    | none =>
      match db.users.find? (fun u => u.email == email) with
      | some _ => (.error .emailExists, db)
      | none =>
        match roleValue role with
        | none => (.error .invalidRole, db)
        | some rv =>
          (.ok ("SUCCESS: User " ++ username ++ " registered successfully with role " ++ rv),
           { db with users := db.users ++ [⟨newId, username, email, e.hashp password, rv⟩] })

/-- `models.cleanup_expired_tokens` (models.py lines 100-118): the
maintenance job that purges expired refresh tokens, reset tokens,
blacklist rows and day-old login attempts. -/
def cleanup_expired_tokens (now : Int) (db : DB) : DB :=
  { db with
    refresh_tokens := db.refresh_tokens.filter (fun t => !decide (t.expires_at < now)),
    reset_tokens := db.reset_tokens.filter (fun t => !decide (t.expires_at < now)),
    blacklist := db.blacklist.filter (fun b => !decide (b.expires_at < now)),
    login_attempts :=
      db.login_attempts.filter (fun a => !decide (a.attempted_at < now - 24 * 3600)) }

/-- One public call against the shared state, carrying the caller's
inputs and the nondeterministic data of the call (the clock reading,
the fresh `generate_token()` values, the autoincrement id, the commit
outcome). `cleanupExpired` is the maintenance job of models.py. -/
inductive Op where
  | registerOp (newId : Nat) (username password email role : String)
  | loginOp (now : Int) (newTok username password : String)
  | refreshOp (now : Int) (newTok rt : String)
  | logoutOp (now : Int) (tok : String)
  | requestResetOp (now : Int) (newTok email : String)
  | resetPasswordOp (now : Int) (commitOk : Bool) (tok newPw : String)
  | cleanupExpiredOp (now : Int)

/-- The state after one call (the call's result is discarded). -/
def step (e : Env) (db : DB) : Op → DB
  | .registerOp newId u pw em r => (register e newId db u pw em r).2
  | .loginOp now newTok u pw => (login e now newTok db u pw).2
  | .refreshOp now newTok rt => (refresh_token e now newTok db rt).2
  | .logoutOp now tok => (logout e now db tok).2
  | .requestResetOp now newTok em => (request_password_reset now newTok db em).2
  | .resetPasswordOp now ok tok pw => (reset_password e now ok db tok pw).2
  | .cleanupExpiredOp now => cleanup_expired_tokens now db

/-- The state after a sequence of calls. -/
def stepList (e : Env) (db : DB) (ops : List Op) : DB :=
  ops.foldl (step e) db

/-- An op never mints a refresh-token row whose value is `rt`
(`generate_token()` returns fresh uuid4 strings, so a given old value is
never re-generated). -/
def Op.avoidsToken (rt : String) : Op → Prop
  | .loginOp _ newTok _ _ => newTok ≠ rt
  | .refreshOp _ newTok _ => newTok ≠ rt
  | _ => True

/-- An op does not run the expiry-driven blacklist purge at a time past
`exp` (the purge is the only deletion from the blacklist). -/
def Op.keepsBlacklistUntil (exp : Int) : Op → Prop
  | .cleanupExpiredOp now => now ≤ exp
  | _ => True

/-- Every row of the `refresh_tokens` table holding the value `rt` is
revoked: the state in which a rotated/revoked refresh token stays dead. -/
def rtDeadAll (rt : String) (db : DB) : Prop :=
  ∀ t ∈ db.refresh_tokens, t.token = rt → t.revoked = true

/-- Some blacklist row carries the fingerprint `jti` and lives at least
until `exp`. -/
def blacklistedUntil (jti : String) (exp : Int) (db : DB) : Prop :=
  ∃ b ∈ db.blacklist, b.jti = jti ∧ exp ≤ b.expires_at

instance (rt : String) (db : DB) : Decidable (rtDeadAll rt db) := by
  unfold rtDeadAll; infer_instance

instance (jti : String) (exp : Int) (db : DB) : Decidable (blacklistedUntil jti exp db) := by
  unfold blacklistedUntil; infer_instance

theorem mem_replaceFirst {p : α → Bool} {f : α → α} {l : List α} {x : α}
    (hx : x ∈ replaceFirst p f l) : x ∈ l ∨ ∃ y ∈ l, x = f y := by
  induction l with
  | nil => simp [replaceFirst] at hx
  | cons a l ih =>
    by_cases hpa : p a
    · simp only [replaceFirst, if_pos hpa, List.mem_cons] at hx
      rcases hx with h | h
      · exact .inr ⟨a, List.mem_cons_self a l, h⟩
      · exact .inl (List.mem_cons_of_mem a h)
    · simp only [replaceFirst, if_neg hpa, List.mem_cons] at hx
      rcases hx with h | h
      · exact .inl (h ▸ List.mem_cons_self a l)
      · rcases ih h with h | ⟨y, hy, hxy⟩
        · exact .inl (List.mem_cons_of_mem a h)
        · exact .inr ⟨y, List.mem_cons_of_mem a hy, hxy⟩

theorem find?_replaceFirst {p : α → Bool} {f : α → α} {l : List α}
    (hp : ∀ x, p (f x) = p x) :
    (replaceFirst p f l).find? p = (l.find? p).map f := by
  induction l with
  | nil => simp [replaceFirst]
  | cons a l ih =>
    by_cases hpa : p a
    · simp [replaceFirst, if_pos hpa, List.find?_cons, hp, hpa]
    · simp [replaceFirst, if_neg hpa, List.find?_cons, hpa, ih]

/-- `replaceFirst` with a revoking update kills every `rt` row when the
table holds at most one row with that value. -/
theorem replaceFirst_revoke_dead {rt : String} {l : List RefreshTokenRow}
    (huniq : l.countP (fun t => t.token == rt) ≤ 1) :
    ∀ x ∈ replaceFirst (fun t => t.token == rt)
        (fun t => { t with revoked := true }) l, x.token = rt → x.revoked = true := by
  induction l with
  | nil => simp [replaceFirst]
  | cons a l ih =>
    intro x hx hxtok
    by_cases hpa : (a.token == rt) = true
    · simp only [replaceFirst, if_pos hpa, List.mem_cons] at hx
      rcases hx with rfl | hx
      · rfl
      · exfalso
        simp only [List.countP_cons, hpa, if_pos] at huniq
        have h0 : l.countP (fun t => t.token == rt) = 0 := by omega
        have := List.countP_eq_zero.mp h0 x hx
        simp [hxtok] at this
    · simp only [replaceFirst, if_neg hpa, List.mem_cons] at hx
      rcases hx with rfl | hx
      · simp [hxtok] at hpa
      · simp only [List.countP_cons, hpa, if_neg, if_false, Nat.add_zero] at huniq
        exact ih huniq x hx hxtok

theorem check_rate_limit_fields (e : Env) (now : Int) (db : DB) (u : String) :
    (check_rate_limit e now db u).2.refresh_tokens = db.refresh_tokens ∧
    (check_rate_limit e now db u).2.users = db.users ∧
    (check_rate_limit e now db u).2.blacklist = db.blacklist ∧
    (check_rate_limit e now db u).2.reset_tokens = db.reset_tokens := by
  unfold check_rate_limit cleanup_old_attempts
  split <;> exact ⟨rfl, rfl, rfl, rfl⟩

theorem register_fields (e : Env) (newId : Nat) (db : DB) (u pw em r : String) :
    (register e newId db u pw em r).2.refresh_tokens = db.refresh_tokens ∧
    (register e newId db u pw em r).2.blacklist = db.blacklist := by
  unfold register
  repeat' split
  all_goals exact ⟨rfl, rfl⟩

theorem request_password_reset_fields (now : Int) (newTok : String) (db : DB) (em : String) :
    (request_password_reset now newTok db em).2.refresh_tokens = db.refresh_tokens ∧
    (request_password_reset now newTok db em).2.blacklist = db.blacklist := by
  unfold request_password_reset
  repeat' split
  all_goals exact ⟨rfl, rfl⟩

/-- The refresh-token table after `login`: unchanged on any failure,
otherwise the old table plus the one freshly minted row. -/
theorem login_refresh_cases (e : Env) (now : Int) (newTok : String) (db : DB)
    (u pw : String) :
    (login e now newTok db u pw).2.refresh_tokens = db.refresh_tokens ∨
    ∃ uid, (login e now newTok db u pw).2.refresh_tokens =
      db.refresh_tokens ++ [⟨newTok, uid, now + e.refreshExpSecs, false⟩] := by
  unfold login
  split
  next f db1 h =>
    left
    have hf := (check_rate_limit_fields e now db u).1
    rw [h] at hf; exact hf
  next x db1 h =>
    have hf := (check_rate_limit_fields e now db u).1
    rw [h] at hf
    split
    · left; simpa [record_login_attempt] using hf
    next uu hu =>
      split
      · left; simpa [record_login_attempt] using hf
      · right
        exact ⟨uu.id, by simp [reset_rate_limit, record_login_attempt]; rw [hf]⟩

theorem login_blacklist (e : Env) (now : Int) (newTok : String) (db : DB)
    (u pw : String) :
    (login e now newTok db u pw).2.blacklist = db.blacklist := by
  unfold login
  split
  next f db1 h =>
    have hf := (check_rate_limit_fields e now db u).2.2.1
    rw [h] at hf; exact hf
  next x db1 h =>
    have hf := (check_rate_limit_fields e now db u).2.2.1
    rw [h] at hf
    split
    · simpa [record_login_attempt] using hf
    · split
      · simpa [record_login_attempt] using hf
      · simpa [reset_rate_limit, record_login_attempt] using hf

/-- The refresh-token table after `refresh_token`: unchanged on any
failure, otherwise the rotation (first `rt` row flipped revoked, fresh
row appended). -/
theorem refresh_refresh_cases (e : Env) (now : Int) (newTok : String) (db : DB)
    (rt : String) :
    (refresh_token e now newTok db rt).2.refresh_tokens = db.refresh_tokens ∨
    ∃ uid, (refresh_token e now newTok db rt).2.refresh_tokens =
      (replaceFirst (fun x => x.token == rt) (fun x => { x with revoked := true })
        db.refresh_tokens) ++ [⟨newTok, uid, now + e.refreshExpSecs, false⟩] := by
  unfold refresh_token
  repeat' split
  · exact .inl rfl
  · exact .inl rfl
  · exact .inl rfl
  · exact .inl rfl
  · exact .inr ⟨_, rfl⟩

theorem refresh_blacklist (e : Env) (now : Int) (newTok : String) (db : DB)
    (rt : String) :
    (refresh_token e now newTok db rt).2.blacklist = db.blacklist := by
  unfold refresh_token
  repeat' split
  all_goals rfl

/-- The refresh-token table after `logout`: unchanged on any
non-blacklisting path, otherwise the per-user bulk revocation. -/
theorem logout_refresh_cases (e : Env) (now : Int) (db : DB) (tok : String) :
    (logout e now db tok).2.refresh_tokens = db.refresh_tokens ∨
    ∃ uid, (logout e now db tok).2.refresh_tokens =
      db.refresh_tokens.map (fun t =>
        if t.user_id == uid && !t.revoked then { t with revoked := true } else t) := by
  unfold logout
  repeat' split
  · exact .inl rfl
  · exact .inl rfl
  · exact .inl rfl
  · exact .inr ⟨_, rfl⟩

/-- The blacklist after `logout`: unchanged or one row appended. -/
theorem logout_blacklist_cases (e : Env) (now : Int) (db : DB) (tok : String) :
    (logout e now db tok).2.blacklist = db.blacklist ∨
    ∃ p, (logout e now db tok).2.blacklist =
      db.blacklist ++ [⟨jtiOf tok, tok, p⟩] := by
  unfold logout
  repeat' split
  · exact .inl rfl
  · exact .inl rfl
  · exact .inl rfl
  · exact .inr ⟨_, rfl⟩

/-- The refresh-token table after `reset_password`: unchanged on any
failure, otherwise the per-user bulk revocation. -/
theorem reset_password_refresh_cases (e : Env) (now : Int) (ok : Bool) (db : DB)
    (tok pw : String) :
    (reset_password e now ok db tok pw).2.refresh_tokens = db.refresh_tokens ∨
    ∃ uid, (reset_password e now ok db tok pw).2.refresh_tokens =
      db.refresh_tokens.map (fun t =>
        if t.user_id == uid && !t.revoked then { t with revoked := true } else t) := by
  unfold reset_password
  repeat' split
  · exact .inl rfl
  · exact .inl rfl
  · exact .inl rfl
  · exact .inl rfl
  · exact .inl rfl
  · exact .inr ⟨_, rfl⟩
  · exact .inl rfl

theorem reset_password_blacklist (e : Env) (now : Int) (ok : Bool) (db : DB)
    (tok pw : String) :
    (reset_password e now ok db tok pw).2.blacklist = db.blacklist := by
  unfold reset_password
  repeat' split
  all_goals rfl

theorem rtDeadAll_of_eq {rt : String} {db db' : DB}
    (h : db'.refresh_tokens = db.refresh_tokens) (hinv : rtDeadAll rt db) :
    rtDeadAll rt db' := by
  intro t ht htok
  rw [h] at ht
  exact hinv t ht htok

theorem rtDeadAll_of_append {rt : String} {db db' : DB} {rows : List RefreshTokenRow}
    (h : db'.refresh_tokens = db.refresh_tokens ++ rows)
    (hrows : ∀ x ∈ rows, x.token ≠ rt) (hinv : rtDeadAll rt db) :
    rtDeadAll rt db' := by
  intro t ht htok
  rw [h] at ht
  rcases List.mem_append.mp ht with ht | ht
  · exact hinv t ht htok
  · exact absurd htok (hrows t ht)

theorem rtDeadAll_of_map_revoke {rt : String} {db db' : DB}
    (cond : RefreshTokenRow → Bool)
    (h : db'.refresh_tokens = db.refresh_tokens.map (fun t =>
      if cond t then { t with revoked := true } else t))
    (hinv : rtDeadAll rt db) : rtDeadAll rt db' := by
  intro t' ht' htok
  rw [h] at ht'
  rcases List.mem_map.mp ht' with ⟨t, ht, rfl⟩
  by_cases hc : cond t
  · simp [hc]
  · simp only [hc, if_neg, if_false] at htok ⊢
    exact hinv t ht htok

theorem rtDeadAll_of_rotate {rt rt' : String} {db db' : DB}
    {rows : List RefreshTokenRow}
    (h : db'.refresh_tokens =
      (replaceFirst (fun x => x.token == rt') (fun x => { x with revoked := true })
        db.refresh_tokens) ++ rows)
    (hrows : ∀ x ∈ rows, x.token ≠ rt) (hinv : rtDeadAll rt db) :
    rtDeadAll rt db' := by
  intro t ht htok
  rw [h] at ht
  rcases List.mem_append.mp ht with ht | ht
  · rcases mem_replaceFirst ht with ht | ⟨y, _, rfl⟩
    · exact hinv t ht htok
    · rfl
  · exact absurd htok (hrows t ht)

theorem rtDeadAll_of_filter {rt : String} {db db' : DB} (q : RefreshTokenRow → Bool)
    (h : db'.refresh_tokens = db.refresh_tokens.filter q) (hinv : rtDeadAll rt db) :
    rtDeadAll rt db' := by
  intro t ht htok
  rw [h] at ht
  exact hinv t (List.mem_of_mem_filter ht) htok

/-- Once every `rt` row is revoked, no public call that avoids re-minting
the value `rt` can bring an unrevoked `rt` row back. -/
theorem rtDeadAll_step (e : Env) (rt : String) (db : DB) (op : Op)
    (hop : op.avoidsToken rt) (hinv : rtDeadAll rt db) :
    rtDeadAll rt (step e db op) := by
  cases op with
  | registerOp newId u pw em r =>
    exact rtDeadAll_of_eq (register_fields e newId db u pw em r).1 hinv
  | loginOp now newTok u pw =>
    rcases login_refresh_cases e now newTok db u pw with h | ⟨uid, h⟩
    · exact rtDeadAll_of_eq h hinv
    · refine rtDeadAll_of_append h ?_ hinv
      intro x hx
      rcases List.mem_singleton.mp hx with rfl
      exact hop
  | refreshOp now newTok rt' =>
    rcases refresh_refresh_cases e now newTok db rt' with h | ⟨uid, h⟩
    · exact rtDeadAll_of_eq h hinv
    · refine rtDeadAll_of_rotate h ?_ hinv
      intro x hx
      rcases List.mem_singleton.mp hx with rfl
      exact hop
  | logoutOp now tok =>
    rcases logout_refresh_cases e now db tok with h | ⟨uid, h⟩
    · exact rtDeadAll_of_eq h hinv
    · exact rtDeadAll_of_map_revoke _ h hinv
  | requestResetOp now newTok em =>
    exact rtDeadAll_of_eq (request_password_reset_fields now newTok db em).1 hinv
  | resetPasswordOp now ok tok pw =>
    rcases reset_password_refresh_cases e now ok db tok pw with h | ⟨uid, h⟩
    · exact rtDeadAll_of_eq h hinv
    · exact rtDeadAll_of_map_revoke _ h hinv
  | cleanupExpiredOp now =>
    exact rtDeadAll_of_filter _ rfl hinv

theorem rtDeadAll_stepList (e : Env) (rt : String) (db : DB) (ops : List Op)
    (hops : ∀ op ∈ ops, op.avoidsToken rt) (hinv : rtDeadAll rt db) :
    rtDeadAll rt (stepList e db ops) := by
  induction ops generalizing db with
  | nil => exact hinv
  | cons op ops ih =>
    exact ih (stepList e db [] |> fun _ => step e db op)
      (fun o ho => hops o (List.mem_cons_of_mem op ho))
      (rtDeadAll_step e rt db op (hops op (List.mem_cons_self op ops)) hinv)

/-- In a state where every `rt` row is revoked, `refresh_token rt` fails
with the revoked (or, if the row was purged, the invalid-token) fault and
leaves the state untouched: no new tokens are minted. -/
theorem refresh_fails_when_dead (e : Env) (now : Int) (newTok rt : String)
    (db : DB) (hinv : rtDeadAll rt db) :
    (refresh_token e now newTok db rt).2 = db ∧
    ((refresh_token e now newTok db rt).1 = .error .refreshTokenRevoked ∨
     (refresh_token e now newTok db rt).1 = .error .invalidRefreshToken) := by
  unfold refresh_token
  cases hfind : db.refresh_tokens.find? (fun t => t.token == rt) with
  | none => exact ⟨rfl, .inr rfl⟩
  | some t =>
    have hmem := List.mem_of_find?_eq_some hfind
    have htok : t.token = rt := by
      have := List.find?_some hfind
      simpa using this
    have hrev : t.revoked = true := hinv t hmem htok
    simp [hrev]

/-- A successful `refresh_token` rotates: the table becomes the old one
with the first `rt` row flipped to revoked, plus the fresh row. -/
theorem refresh_success_shape (e : Env) (now : Int) (newTok : String) (db : DB)
    (rt : String)
    (hsucc : ∃ m, (refresh_token e now newTok db rt).1 = Except.ok m) :
    ∃ uid, (refresh_token e now newTok db rt).2.refresh_tokens =
      (replaceFirst (fun x => x.token == rt) (fun x => { x with revoked := true })
        db.refresh_tokens) ++ [⟨newTok, uid, now + e.refreshExpSecs, false⟩] := by
  obtain ⟨m, hm⟩ := hsucc
  unfold refresh_token at hm ⊢
  split at hm
  · simp at hm
  next t hfind =>
    split at hm
    · simp at hm
    next hrev =>
      split at hm
      · simp at hm
      next hexp =>
        split at hm
        · simp at hm
        next u hufind =>
          refine ⟨u.id, ?_⟩
          simp only [if_neg hrev, if_neg hexp, hufind]

theorem blacklistedUntil_of_eq {j : String} {exp : Int} {db db' : DB}
    (h : db'.blacklist = db.blacklist) (hinv : blacklistedUntil j exp db) :
    blacklistedUntil j exp db' := by
  unfold blacklistedUntil at hinv ⊢
  rw [h]
  exact hinv

theorem blacklistedUntil_of_append {j : String} {exp : Int} {db db' : DB}
    {rows : List BlacklistRow} (h : db'.blacklist = db.blacklist ++ rows)
    (hinv : blacklistedUntil j exp db) : blacklistedUntil j exp db' := by
  obtain ⟨b, hb, hj, hexp⟩ := hinv
  exact ⟨b, by rw [h]; exact List.mem_append_left _ hb, hj, hexp⟩

/-- No public call run while the entry is still live removes it from the
blacklist (the expiry-driven purge is the only deletion). -/
theorem blacklistedUntil_step (e : Env) (j : String) (exp : Int) (db : DB)
    (op : Op) (hop : op.keepsBlacklistUntil exp)
    (hinv : blacklistedUntil j exp db) : blacklistedUntil j exp (step e db op) := by
  cases op with
  | registerOp newId u pw em r =>
    exact blacklistedUntil_of_eq (register_fields e newId db u pw em r).2 hinv
  | loginOp now newTok u pw =>
    exact blacklistedUntil_of_eq (login_blacklist e now newTok db u pw) hinv
  | refreshOp now newTok rt =>
    exact blacklistedUntil_of_eq (refresh_blacklist e now newTok db rt) hinv
  | logoutOp now tok =>
    rcases logout_blacklist_cases e now db tok with h | ⟨p, h⟩
    · exact blacklistedUntil_of_eq h hinv
    · exact blacklistedUntil_of_append h hinv
  | requestResetOp now newTok em =>
    exact blacklistedUntil_of_eq (request_password_reset_fields now newTok db em).2 hinv
  | resetPasswordOp now ok tok pw =>
    exact blacklistedUntil_of_eq (reset_password_blacklist e now ok db tok pw) hinv
  | cleanupExpiredOp now =>
    obtain ⟨b, hb, hj, hexp⟩ := hinv
    have hkeep : now ≤ exp := hop
    refine ⟨b, ?_, hj, hexp⟩
    simp only [step, cleanup_expired_tokens, List.mem_filter]
    refine ⟨hb, ?_⟩
    simp only [Bool.not_eq_eq_eq_not, Bool.not_true, decide_eq_false_iff_not, not_lt]
    omega

theorem blacklistedUntil_stepList (e : Env) (j : String) (exp : Int) (db : DB)
    (ops : List Op) (hops : ∀ op ∈ ops, op.keepsBlacklistUntil exp)
    (hinv : blacklistedUntil j exp db) : blacklistedUntil j exp (stepList e db ops) := by
  induction ops generalizing db with
  | nil => exact hinv
  | cons op ops ih =>
    exact ih (step e db op) (fun o ho => hops o (List.mem_cons_of_mem op ho))
      (blacklistedUntil_step e j exp db op (hops op (List.mem_cons_self op ops)) hinv)

/-- `verify_token` rejects with the revoked fault whenever some blacklist
row carries the token's fingerprint (this is the first check it makes). -/
theorem verify_fails_when_blacklisted (e : Env) (now : Int) (db : DB) (tok : String)
    (h : ∃ b ∈ db.blacklist, b.jti = jtiOf tok) :
    verify_token e now db tok = .error .tokenRevoked := by
  obtain ⟨b, hb, hj⟩ := h
  have hany : db.blacklist.any (fun b => b.jti == jtiOf tok) = true :=
    List.any_eq_true.mpr ⟨b, hb, by simp [hj]⟩
  unfold verify_token
  simp [hany]

/-- A first logout of a live token inserts the blacklist row with the
token's natural expiry. -/
theorem logout_blacklists (e : Env) (now : Int) (db : DB) (tok : String)
    (p : Payload) (hdec : e.dec tok = some p) (hlive : ¬ p.exp ≤ now)
    (hnew : db.blacklist.any (fun b => b.jti == jtiOf tok) = false) :
    blacklistedUntil (jtiOf tok) p.exp (logout e now db tok).2 := by
  have h1 : decide (p.exp ≤ now) = false := decide_eq_false hlive
  unfold logout
  rw [hdec]
  simp only [h1, Bool.false_eq_true, if_false, hnew]
  exact ⟨⟨jtiOf tok, tok, p.exp⟩, by simp, rfl, le_refl _⟩

/-- C1: a refresh token is single-use. A successful `refresh_token rt`
(on a table holding `rt` at most once, with a fresh replacement value)
leaves every `rt` row revoked, and after any further sequence of public
calls (none of which re-mints the value `rt` — `generate_token()` is
fresh uuid4), another `refresh_token rt` fails with the revoked (or,
if the row was purged, invalid-token) fault and mints nothing: the
state is returned unchanged. -/
theorem refresh_token_single_use (e : Env) (now : Int) (newTok rt : String)
    (db : DB) (hfresh : newTok ≠ rt)
    (huniq : db.refresh_tokens.countP (fun t => t.token == rt) ≤ 1)
    (hsucc : ∃ m, (refresh_token e now newTok db rt).1 = Except.ok m)
    (ops : List Op) (hops : ∀ op ∈ ops, op.avoidsToken rt)
    (now2 : Int) (newTok2 : String) (db2 : DB)
    (hdb2 : db2 = stepList e ((refresh_token e now newTok db rt).2) ops) :
    (refresh_token e now2 newTok2 db2 rt).2 = db2 ∧
    ((refresh_token e now2 newTok2 db2 rt).1 = .error .refreshTokenRevoked ∨
     (refresh_token e now2 newTok2 db2 rt).1 = .error .invalidRefreshToken) := by
  subst hdb2
  apply refresh_fails_when_dead
  apply rtDeadAll_stepList e rt _ ops hops
  obtain ⟨uid, hshape⟩ := refresh_success_shape e now newTok db rt hsucc
  intro t ht htok
  rw [hshape] at ht
  rcases List.mem_append.mp ht with ht | ht
  · exact replaceFirst_revoke_dead huniq t ht htok
  · rcases List.mem_singleton.mp ht with rfl
    exact absurd htok hfresh

/-- Concrete claim set used by the evaluation fixtures. -/
def samplePayload : Payload :=
  { user_id := 1, username := "alice", role := "user", type := "access",
    exp := 1000, iat := 0 }

/-- Concrete environment used by the evaluation fixtures: one decodable
token string, bcrypt and jwt.encode replaced by executable stand-ins. -/
def sampleEnv : Env :=
  { dec := fun s => if s == "tokA" then some samplePayload else none,
    enc := fun _ => "jwtA",
    checkpw := fun pw h => h == "hash:" ++ pw,
    hashp := fun pw => "hash:" ++ pw,
    validEmail := fun em => em == "alice@example.com",
    maxAttempts := 5, windowSecs := 900, accessExpSecs := 900,
    refreshExpSecs := 604800 }

def sampleUser : UserRow :=
  { id := 1, username := "alice", email := "alice@example.com",
    password_hash := "hash:Secret123", role := "user" }

/-- Concrete initial state: one user, one live refresh token, one unused
reset token, no blacklist rows, no recorded attempts. -/
def sampleDB : DB :=
  { users := [sampleUser],
    refresh_tokens := [{ token := "rt1", user_id := 1, expires_at := 2000, revoked := false }],
    login_attempts := [],
    reset_tokens := [{ token := "pr1", user_id := 1, expires_at := 2000, used := false }],
    blacklist := [] }

/-- The state right after a successful rotation of `rt1` in `sampleDB`. -/
def sampleDB1 : DB := (refresh_token sampleEnv 0 "rt2" sampleDB "rt1").2

theorem refresh_token_single_use_witness :
    (refresh_token sampleEnv 1 "rt3" sampleDB1 "rt1").2 = sampleDB1 ∧
    ((refresh_token sampleEnv 1 "rt3" sampleDB1 "rt1").1 = .error .refreshTokenRevoked ∨
     (refresh_token sampleEnv 1 "rt3" sampleDB1 "rt1").1 = .error .invalidRefreshToken) :=
  refresh_token_single_use sampleEnv 0 "rt2" "rt1" sampleDB (by decide) (by decide)
    ⟨_, rfl⟩ [] (fun op hop => absurd hop (List.not_mem_nil op)) 1 "rt3" sampleDB1 rfl

/-- C2: logout permanently revokes the access token. A first logout of a
live token (decodable, unexpired, fingerprint not yet blacklisted)
inserts its fingerprint, and after any further sequence of public calls
that does not run the expiry-driven blacklist purge past the token's
`exp`, `verify_token` on that exact token string fails with the revoked
fault at every time, in particular while `exp` has not passed. -/
theorem logout_permanently_revokes (e : Env) (now : Int) (db : DB) (tok : String)
    (p : Payload) (hdec : e.dec tok = some p) (hlive : ¬ p.exp ≤ now)
    (hnew : db.blacklist.any (fun b => b.jti == jtiOf tok) = false)
    (ops : List Op) (hops : ∀ op ∈ ops, op.keepsBlacklistUntil p.exp)
    (now2 : Int) (db2 : DB) (hdb2 : db2 = stepList e ((logout e now db tok).2) ops) :
    verify_token e now2 db2 tok = .error .tokenRevoked := by
  subst hdb2
  apply verify_fails_when_blacklisted
  obtain ⟨b, hb, hj, _⟩ := blacklistedUntil_stepList e (jtiOf tok) p.exp _ ops hops
    (logout_blacklists e now db tok p hdec hlive hnew)
  exact ⟨b, hb, hj⟩

/-- The state right after a first logout of `tokA` in `sampleDB`. -/
def sampleDB2 : DB := (logout sampleEnv 0 sampleDB "tokA").2

theorem logout_permanently_revokes_witness :
    verify_token sampleEnv 5 sampleDB2 "tokA" = .error .tokenRevoked :=
  logout_permanently_revokes sampleEnv 0 sampleDB "tokA" samplePayload rfl
    (by decide) rfl [] (fun op hop => absurd hop (List.not_mem_nil op)) 5 sampleDB2 rfl

/-- Counterexample to C3 as stated: `logout` of an already-expired access
token returns a success result ("SUCCESS: Logged out") yet changes
nothing — the principal's live refresh token stays `revoked = false`. -/
theorem logout_success_without_revoking_cex :
    (logout sampleEnv 2000 sampleDB "tokA").1 = .ok "SUCCESS: Logged out" ∧
    (logout sampleEnv 2000 sampleDB "tokA").2 = sampleDB ∧
    sampleDB.refresh_tokens.any (fun t => !t.revoked) = true := by
  decide

/-- C3 (amended): a logout that actually blacklists — a decodable,
unexpired token whose fingerprint is not yet blacklisted, answered with
"SUCCESS: Logged out successfully" — leaves every refresh-token row of
the token's principal revoked. -/
theorem logout_fresh_revokes_all_sessions (e : Env) (now : Int) (db : DB)
    (tok : String) (p : Payload) (hdec : e.dec tok = some p)
    (hlive : ¬ p.exp ≤ now)
    (hnew : db.blacklist.any (fun b => b.jti == jtiOf tok) = false) :
    (logout e now db tok).1 = .ok "SUCCESS: Logged out successfully" ∧
    ∀ t ∈ (logout e now db tok).2.refresh_tokens,
      t.user_id = p.user_id → t.revoked = true := by
  have h1 : decide (p.exp ≤ now) = false := decide_eq_false hlive
  unfold logout
  rw [hdec]
  simp only [h1, Bool.false_eq_true, if_false, hnew]
  refine ⟨trivial, ?_⟩
  intro t' ht' huid
  rcases List.mem_map.mp ht' with ⟨t, ht, rfl⟩
  by_cases hc : (t.user_id == p.user_id && !t.revoked) = true
  · simp [hc]
  · rw [if_neg hc] at huid ⊢
    cases hr : t.revoked with
    | true => rfl
    | false => exact absurd (by simp [huid, hr]) hc

theorem logout_fresh_revokes_all_sessions_witness :
    (logout sampleEnv 0 sampleDB "tokA").1 = .ok "SUCCESS: Logged out successfully" ∧
    ∀ t ∈ (logout sampleEnv 0 sampleDB "tokA").2.refresh_tokens,
      t.user_id = samplePayload.user_id → t.revoked = true :=
  logout_fresh_revokes_all_sessions sampleEnv 0 sampleDB "tokA" samplePayload
    rfl (by decide) rfl

/-- Concrete state for the C4 counterexample: `tokA` (exp 1000) is
blacklisted and the clock reads 2000, so it is both expired and present
in the revocation registry. -/
def sampleDBbl : DB := { sampleDB with blacklist := [⟨jtiOf "tokA", "tokA", 1000⟩] }

/-- Counterexample to C4 as stated: a token that is both expired and
blacklisted is rejected as revoked, not as expired — the registry is
consulted before signature and expiry. -/
theorem verify_expired_blacklisted_cex :
    verify_token sampleEnv 2000 sampleDBbl "tokA" = .error .tokenRevoked ∧
    verify_token sampleEnv 2000 sampleDBbl "tokA" ≠ .error .tokenExpired := by
  decide

/-- C4 (amended): `verify_token` consults the revocation registry first:
a blacklisted token is always rejected as revoked; only a token that is
not blacklisted, decodes, and has a stale `exp` is rejected as expired. -/
theorem verify_token_checks_blacklist_first (e : Env) (now : Int) (db : DB)
    (tok : String) :
    (db.blacklist.any (fun b => b.jti == jtiOf tok) = true →
      verify_token e now db tok = .error .tokenRevoked) ∧
    (db.blacklist.any (fun b => b.jti == jtiOf tok) = false →
      ∀ p, e.dec tok = some p → p.exp ≤ now →
        verify_token e now db tok = .error .tokenExpired) := by
  constructor
  · intro h
    unfold verify_token
    simp [h]
  · intro h p hdec hexp
    unfold verify_token
    simp [h, hdec, hexp]

theorem verify_token_checks_blacklist_first_witness :
    verify_token sampleEnv 2000 sampleDBbl "tokA" = .error .tokenRevoked ∧
    verify_token sampleEnv 2000 sampleDB "tokA" = .error .tokenExpired :=
  ⟨(verify_token_checks_blacklist_first sampleEnv 2000 sampleDBbl "tokA").1 (by decide),
   (verify_token_checks_blacklist_first sampleEnv 2000 sampleDB "tokA").2 rfl
     samplePayload rfl (by decide)⟩

/-- C5: once the recorded failed attempts inside the trailing window
reach the configured threshold, `login` fails with the rate-limit fault
for every supplied password — the rate limiter runs before the password
is ever verified — and the state is unchanged (the fault is raised
before any write). -/
theorem rate_limited_login_fails (e : Env) (now : Int) (db : DB) (username : String)
    (h : e.maxAttempts ≤ failedAttemptsInWindow e now db username) :
    ∀ password newTok,
      login e now newTok db username password = (.error .rateLimitExceeded, db) := by
  intro password newTok
  unfold login check_rate_limit
  simp [h]

/-- Five failed attempts for alice recorded inside the last 15 minutes. -/
def sampleDBrl : DB := { sampleDB with login_attempts :=
  [⟨"alice", false, 100⟩, ⟨"alice", false, 200⟩, ⟨"alice", false, 300⟩,
   ⟨"alice", false, 400⟩, ⟨"alice", false, 500⟩] }

theorem rate_limited_login_fails_witness :
    login sampleEnv 500 "rt9" sampleDBrl "alice" "Secret123" =
      (.error .rateLimitExceeded, sampleDBrl) :=
  rate_limited_login_fails sampleEnv 500 sampleDBrl "alice" (by decide) "Secret123" "rt9"

/-- The per-user bulk revocation of `logout`/`reset_password` leaves every
row of that user revoked. -/
theorem map_revoke_user_all (uid : Nat) (l : List RefreshTokenRow) :
    ∀ x ∈ l.map (fun x =>
        if x.user_id == uid && !x.revoked then { x with revoked := true } else x),
      x.user_id = uid → x.revoked = true := by
  intro x' hx' huid
  rcases List.mem_map.mp hx' with ⟨x, hx, rfl⟩
  by_cases hc : (x.user_id == uid && !x.revoked) = true
  · simp [hc]
  · rw [if_neg hc] at huid ⊢
    cases hr : x.revoked with
    | true => rfl
    | false => exact absurd (by simp [huid, hr]) hc

/-- Branch reduction of `reset_password` when every check passes: the
commit decides between the full three-effect state and the rolled-back
fault. -/
theorem reset_password_reduces (e : Env) (now : Int) (ok : Bool) (db : DB)
    (tok pw : String) (t : ResetTokenRow) (u : UserRow)
    (hpw : ¬ pw.length < 6)
    (hfind : db.reset_tokens.find? (fun x => x.token == tok) = some t)
    (hused : t.used = false) (hexp : ¬ (t.expires_at < now))
    (hufind : db.users.find? (fun x => x.id == t.user_id) = some u) :
    reset_password e now ok db tok pw =
      if ok then
        (.ok ("SUCCESS: Password reset successfully for user " ++ u.username),
         { db with
           users := replaceFirst (fun x => x.id == t.user_id)
             (fun x => { x with password_hash := e.hashp pw }) db.users,
           reset_tokens := replaceFirst (fun x => x.token == tok)
             (fun x => { x with used := true }) db.reset_tokens,
           refresh_tokens := db.refresh_tokens.map (fun x =>
             if x.user_id == u.id && !x.revoked then { x with revoked := true } else x) })
      else (.error (.serverError "Password reset failed"), db) := by
  unfold reset_password
  simp [hpw, hfind, hused, hexp, hufind]

/-- C7: when all checks pass, `reset_password` with a committing
transaction produces all three effects at once — the principal's stored
hash becomes the hash of the new password, the reset token's `used` flag
becomes true, and every refresh token of the principal is revoked —
while with a failing commit nothing changes and the caller gets the
Server fault. -/
theorem reset_password_atomic (e : Env) (now : Int) (db : DB) (tok pw : String)
    (t : ResetTokenRow) (u : UserRow)
    (hfind : db.reset_tokens.find? (fun x => x.token == tok) = some t)
    (hused : t.used = false) (hexp : ¬ (t.expires_at < now))
    (hpw : ¬ pw.length < 6)
    (hufind : db.users.find? (fun x => x.id == t.user_id) = some u) :
    ((reset_password e now true db tok pw).2.users.find? (fun x => x.id == t.user_id)
        = some { u with password_hash := e.hashp pw } ∧
     (reset_password e now true db tok pw).2.reset_tokens.find? (fun x => x.token == tok)
        = some { t with used := true } ∧
     (∀ x ∈ (reset_password e now true db tok pw).2.refresh_tokens,
        x.user_id = u.id → x.revoked = true)) ∧
    reset_password e now false db tok pw = (.error (.serverError "Password reset failed"), db) := by
  have hT := reset_password_reduces e now true db tok pw t u hpw hfind hused hexp hufind
  have hF := reset_password_reduces e now false db tok pw t u hpw hfind hused hexp hufind
  rw [if_pos rfl] at hT
  rw [if_neg (by simp)] at hF
  refine ⟨⟨?_, ?_, ?_⟩, hF⟩
  · simp only [hT]
    rw [@find?_replaceFirst _ (fun x => x.id == t.user_id)
      (fun x => { x with password_hash := e.hashp pw }) db.users (fun x => rfl), hufind]
    rfl
  · simp only [hT]
    rw [@find?_replaceFirst _ (fun x => x.token == tok)
      (fun x => { x with used := true }) db.reset_tokens (fun x => rfl), hfind]
    rfl
  · simp only [hT]
    exact map_revoke_user_all u.id db.refresh_tokens

/-- The unused reset token of `sampleDB`. -/
def samplePR : ResetTokenRow := { token := "pr1", user_id := 1, expires_at := 2000, used := false }

theorem reset_password_atomic_witness :
    ((reset_password sampleEnv 0 true sampleDB "pr1" "NewSecret1").2.users.find?
        (fun x => x.id == samplePR.user_id)
        = some { sampleUser with password_hash := sampleEnv.hashp "NewSecret1" } ∧
     (reset_password sampleEnv 0 true sampleDB "pr1" "NewSecret1").2.reset_tokens.find?
        (fun x => x.token == "pr1") = some { samplePR with used := true } ∧
     (∀ x ∈ (reset_password sampleEnv 0 true sampleDB "pr1" "NewSecret1").2.refresh_tokens,
        x.user_id = sampleUser.id → x.revoked = true)) ∧
    reset_password sampleEnv 0 false sampleDB "pr1" "NewSecret1" =
      (.error (.serverError "Password reset failed"), sampleDB) :=
  reset_password_atomic sampleEnv 0 sampleDB "pr1" "NewSecret1" samplePR sampleUser
    rfl rfl (by decide) (by decide) rfl

/-- A successful consuming `reset_password` found an unused, unexpired
token row, and its post-state is the three-effect update. -/
theorem reset_password_success_shape (e : Env) (now : Int) (db : DB)
    (tok pw : String)
    (hsucc : ∃ m, (reset_password e now true db tok pw).1 = Except.ok m) :
    ∃ t u, db.reset_tokens.find? (fun x => x.token == tok) = some t ∧
      (reset_password e now true db tok pw).2.reset_tokens =
        replaceFirst (fun x => x.token == tok) (fun x => { x with used := true })
          db.reset_tokens ∧ u ∈ db.users := by
  obtain ⟨m, hm⟩ := hsucc
  unfold reset_password at hm ⊢
  split at hm
  · simp at hm
  next hpw =>
    split at hm
    · simp at hm
    next t hfind =>
      split at hm
      · simp at hm
      next hused =>
        split at hm
        · simp at hm
        next hexp =>
          split at hm
          · simp at hm
          next u hufind =>
            refine ⟨t, u, hfind, ?_, List.mem_of_find?_eq_some hufind⟩
            simp only [if_neg hpw, hfind, if_neg hused, if_neg hexp, hufind]
            rfl

/-- C6: a reset token is consumed exactly once. After a successful
consuming call, any later call with the same token value (and a valid
new password, which is checked first) fails with the already-used fault
and leaves the state — in particular the stored password hash —
untouched, whatever the clock or commit outcome. -/
theorem reset_token_single_use (e : Env) (now : Int) (db : DB) (tok pw : String)
    (hsucc : ∃ m, (reset_password e now true db tok pw).1 = Except.ok m)
    (now2 : Int) (ok2 : Bool) (pw2 : String) (hpw2 : ¬ pw2.length < 6)
    (db1 : DB) (hdb1 : db1 = (reset_password e now true db tok pw).2) :
    reset_password e now2 ok2 db1 tok pw2 = (.error .resetTokenUsed, db1) := by
  obtain ⟨t, u, hfind, hshape, _⟩ := reset_password_success_shape e now db tok pw hsucc
  have hfind2 : db1.reset_tokens.find? (fun x => x.token == tok)
      = some { t with used := true } := by
    rw [hdb1, hshape, @find?_replaceFirst _ (fun x => x.token == tok)
      (fun x => { x with used := true }) db.reset_tokens (fun x => rfl), hfind]
    rfl
  unfold reset_password
  rw [if_neg hpw2]
  simp only [hfind2]
  rfl

/-- The state right after consuming `pr1` in `sampleDB`. -/
def sampleDB3 : DB := (reset_password sampleEnv 0 true sampleDB "pr1" "NewSecret1").2

theorem reset_token_single_use_witness :
    reset_password sampleEnv 1 true sampleDB3 "pr1" "NewSecret2" =
      (.error .resetTokenUsed, sampleDB3) :=
  reset_token_single_use sampleEnv 0 sampleDB "pr1" "NewSecret1" ⟨_, rfl⟩
    1 true "NewSecret2" (by decide) sampleDB3 rfl

/-- Modelled from the spec sentence behind C8: count failed attempts in
the window that is exclusive of the instant `now - window` and inclusive
of `now`. -/
def specExclusiveWindowCount (e : Env) (now : Int) (db : DB) (username : String) : Nat :=
  (db.login_attempts.filter (fun a =>
    a.username == username && !a.success &&
    decide (windowStart e now < a.attempted_at) && decide (a.attempted_at ≤ now))).length

/-- A single failed attempt recorded exactly at the window boundary
`now - window` (now = 900, window = 900 s, attempt at 0). -/
def sampleDBboundary : DB := { sampleDB with login_attempts := [⟨"alice", false, 0⟩] }

/-- Counterexample to C8 as stated: the code's query uses
`attempted_at >= window_start`, so an attempt lying exactly at
`now - window` is counted, while the spec's exclusive-from window
excludes it. -/
theorem rate_window_boundary_cex :
    failedAttemptsInWindow sampleEnv 900 sampleDBboundary "alice" = 1 ∧
    specExclusiveWindowCount sampleEnv 900 sampleDBboundary "alice" = 0 := by
  decide

/-- Modelled from the amended reading of the spec sentence: the window is
inclusive of `now - window`, and the query puts no upper bound at `now`. -/
def specInclusiveWindowCount (e : Env) (now : Int) (db : DB) (username : String) : Nat :=
  (db.login_attempts.filter (fun a =>
    a.username == username && !a.success && decide (now - e.windowSecs ≤ a.attempted_at))).length

/-- C8 (amended): `check_rate_limit` counts exactly the failed attempts
of the handle whose timestamp is ≥ `now - window` (inclusive-from, no
explicit upper bound), the count taken at check time: the fault fires
precisely when that count reaches the threshold. -/
theorem check_rate_limit_counts_inclusive_window (e : Env) (now : Int) (db : DB)
    (u : String) :
    failedAttemptsInWindow e now db u = specInclusiveWindowCount e now db u ∧
    ((check_rate_limit e now db u).1 = .error .rateLimitExceeded ↔
      e.maxAttempts ≤ specInclusiveWindowCount e now db u) := by
  have hc : failedAttemptsInWindow e now db u = specInclusiveWindowCount e now db u := by
    unfold failedAttemptsInWindow specInclusiveWindowCount windowStart
    rfl
  refine ⟨hc, ?_⟩
  unfold check_rate_limit
  by_cases h : e.maxAttempts ≤ failedAttemptsInWindow e now db u
  · simp only [if_pos h]
    rw [hc] at h
    simp [h]
  · simp only [if_neg h]
    rw [hc] at h
    simp [h]

/-- C9: failure responses never reveal whether a principal exists.
`request_password_reset` answers the one constant success string whether
or not a user carries the e-mail, and a failed `login` (rate limit not
hit) answers the identical invalid-credentials fault both for an unknown
username and for a known username with a wrong password. -/
theorem no_account_enumeration (e : Env) (now : Int) (db : DB) :
    (∀ email newTok,
      (request_password_reset now newTok db email).1 = .ok resetRequestResponse) ∧
    (∀ username password newTok,
      ¬ e.maxAttempts ≤ failedAttemptsInWindow e now db username →
      (db.users.find? (fun u => u.username == username) = none ∨
       ∃ u, db.users.find? (fun u => u.username == username) = some u ∧
            e.checkpw password u.password_hash = false) →
      (login e now newTok db username password).1 = .error .invalidCredentials) := by
  constructor
  · intro email newTok
    unfold request_password_reset
    split <;> rfl
  · intro username password newTok hrate hcase
    unfold login check_rate_limit
    rw [if_neg hrate]
    rcases hcase with hnone | ⟨u, hu, hpw⟩
    · simp [cleanup_old_attempts, hnone]
    · simp [cleanup_old_attempts, hu, hpw]

theorem no_account_enumeration_witness :
    ((request_password_reset 0 "pr9" sampleDB "ghost@example.com").1
        = .ok resetRequestResponse ∧
     (request_password_reset 0 "pr9" sampleDB "alice@example.com").1
        = .ok resetRequestResponse) ∧
    ((login sampleEnv 0 "rt9" sampleDB "ghost" "Secret123").1
        = .error .invalidCredentials ∧
     (login sampleEnv 0 "rt9" sampleDB "alice" "wrongpass").1
        = .error .invalidCredentials) :=
  ⟨⟨(no_account_enumeration sampleEnv 0 sampleDB).1 "ghost@example.com" "pr9",
    (no_account_enumeration sampleEnv 0 sampleDB).1 "alice@example.com" "pr9"⟩,
   ⟨(no_account_enumeration sampleEnv 0 sampleDB).2 "ghost" "Secret123" "rt9"
      (by decide) (.inl (by decide)),
    (no_account_enumeration sampleEnv 0 sampleDB).2 "alice" "wrongpass" "rt9"
      (by decide) (.inr ⟨sampleUser, by decide, by decide⟩)⟩⟩

/-- C10: logout is idempotent at the public interface. On a decodable
token whose fingerprint is already blacklisted, logout returns a success
result and the state verbatim (no second blacklist row, no refresh-token
change); likewise on an already-expired token it returns success without
writing anything. -/
theorem logout_idempotent (e : Env) (now : Int) (db : DB) (tok : String)
    (p : Payload) (hdec : e.dec tok = some p) :
    (db.blacklist.any (fun b => b.jti == jtiOf tok) = true →
      ∃ m, logout e now db tok = (.ok m, db)) ∧
    (p.exp ≤ now → logout e now db tok = (.ok "SUCCESS: Logged out", db)) := by
  constructor
  · intro hbl
    unfold logout
    rw [hdec]
    by_cases hexp : p.exp ≤ now
    · exact ⟨"SUCCESS: Logged out", by simp [hexp]⟩
    · exact ⟨"SUCCESS: Already logged out", by simp [hexp, hbl]⟩
  · intro hexp
    unfold logout
    rw [hdec]
    simp [hexp]

theorem logout_idempotent_witness :
    (∃ m, logout sampleEnv 500 sampleDBbl "tokA" = (.ok m, sampleDBbl)) ∧
    logout sampleEnv 2000 sampleDB "tokA" = (.ok "SUCCESS: Logged out", sampleDB) :=
  ⟨(logout_idempotent sampleEnv 500 sampleDBbl "tokA" samplePayload rfl).1 rfl,
   (logout_idempotent sampleEnv 2000 sampleDB "tokA" samplePayload rfl).2 (by decide)⟩
